import Mathlib

/-!
Shallow embedding of `ls_updater.py` (a LimeSurvey update assistant).

The script is a single linear pipeline (`run`, src/ls_updater.py lines
100-372): it reads the installed version, fetches and parses a releases
page, selects the first release of the configured branch, and — unless it
decides the installation is current — performs a 12-step upgrade
(download, extract, stop service, database backup, tree backup, copy of
restore-critical files, delete, move, restore, chown, chmod, start
service), aborting with exit code 1 on the first failure.

We embed the pure decision logic directly (string splitting and substring
containment exactly as Python's `str.split` / `in` / `startswith`), and the
effectful pipeline as a function from the configuration, the installed
version fields, the list of parsed anchor hrefs, and an environment oracle
(which filesystem paths pre-exist, which external operations fail) to an
exit code together with the ordered trace of attempted external actions.
-/

namespace LSU

/-- True iff the first list is an initial segment of the second
(the comparison Python performs for `str.startswith` and at each offset of
`pat in s`). -/
def matchesFront : List Char → List Char → Bool
  | [], _ => true
  | _ :: _, [] => false
  | c :: cs, d :: ds => c == d && matchesFront cs ds

/-- Python `pat in s` substring containment, on character lists. -/
def hasSub (pat : List Char) : List Char → Bool
  | [] => pat.isEmpty
  | d :: ds => matchesFront pat (d :: ds) || hasSub pat ds

/-- Fuelled worker for Python `str.split(sep)` with a nonempty separator:
left-to-right scan, non-overlapping matches. The fuel only serves to make
the recursion structural; `pySplit` supplies enough fuel that the
fuel-exhausted case is unreachable. -/
def splitFuel (sep : List Char) : Nat → List Char → List Char → List (List Char)
  | 0, s, acc => [acc.reverse ++ s]
  | _ + 1, [], acc => [acc.reverse]
  | n + 1, c :: rest, acc =>
    if matchesFront sep (c :: rest) then
      acc.reverse :: splitFuel sep n (List.drop (sep.length - 1) rest) []
    else
      splitFuel sep n rest (c :: acc)

/-- Python `s.split(sep)` for a nonempty separator. -/
def pySplit (s sep : String) : List String :=
  if sep.data.isEmpty then [s]
  else (splitFuel sep.data (s.data.length + 1) s.data []).map String.mk

/-- Python `pat in s`. -/
def pyContains (s pat : String) : Bool := hasSub pat.data s.data

/-- Python `s.startswith(pat)`. -/
def pyStartswith (s pat : String) : Bool := matchesFront pat.data s.data

/-- One parsed release row (src lines 154-156): the combined
`version+build` code, the release channel tag, and the anchor href. -/
structure Release where
  release_code : String
  type : String
  url : String
  deriving DecidableEq

/-- The validated configuration record (src lines 70-72): the thirteen
recognized `config.json` keys. The three logging sinks are booleans; all
other values are strings (`db_port` is stringified before use, src line
243). -/
structure Config where
  branch : String
  db_cnf_path : String
  db_name : String
  db_port : String
  db_server : String
  install_octal_permissions : String
  install_owner : String
  install_path : String
  log_to_file : Bool
  log_to_stdout : Bool
  log_to_syslog : Bool
  web_server_init_system : String
  web_server_service : String
  deriving DecidableEq

/-- Environment oracle for one run: which guarded paths already exist on
disk when the corresponding step looks for them, and which external
operations (subprocess invocations, downloads, archive/file operations)
raise. Each flag is consulted exactly where the source performs the
corresponding `os.path.exists` check or `try` block. -/
structure Env where
  downloadDirExists : Bool
  dlFileExists : Bool
  downloadFails : Bool
  extractDirExists : Bool
  extractFails : Bool
  stopFails : Bool
  dbBackupExists : Bool
  backupDirExists : Bool
  mkdirFails : Bool
  dumpFails : Bool
  treeBackupExists : Bool
  archiveFails : Bool
  copyFails : Bool
  deleteFails : Bool
  moveFails : Bool
  restoreFails : Bool
  chownFails : Bool
  chmodFails : Bool
  startFails : Bool
  deriving DecidableEq

/-- One attempted external action, mirroring the concrete library call in
the source: `os.makedirs`, `os.remove`, `wget.download`,
`shutil.unpack_archive`, `subprocess.run`, `shutil.make_archive`,
`shutil.copytree`, `shutil.copy2`, `shutil.rmtree`, `shutil.move`. -/
inductive Act where
  | makeDirs (path : String)
  | removeFile (path : String)
  | wgetDownload (url dest : String)
  | unpackArchive (src dest : String)
  | runCmd (cmd : List String)
  | makeArchive (base fmt root : String)
  | copyTree (src dest : String)
  | copyFile (src dest : String)
  | removeTree (path : String)
  | moveTree (src dest : String)
  deriving DecidableEq

/-- The filesystem paths an action (potentially) writes, removes or
creates. Command invocations are classified separately by their argument
vector. -/
def Act.pathsWritten : Act → List String
  | .makeDirs p => [p]
  | .removeFile p => [p]
  | .wgetDownload _ dest => [dest]
  | .unpackArchive _ dest => [dest]
  | .runCmd _ => []
  | .makeArchive base _ _ => [base ++ ".zip"]
  | .copyTree _ dest => [dest]
  | .copyFile _ dest => [dest]
  | .removeTree p => [p]
  | .moveTree src dest => [src, dest]

/-- Result of a run: the process exit code and the ordered trace of
attempted external actions. -/
structure RunResult where
  exitCode : Nat
  trace : List Act
  deriving DecidableEq

/-- Channel classification of one release anchor href (src lines 142-150):
three literal substring tests against the href, in source order; `none`
models the `else` branch that aborts the whole run. -/
def classifyChannel (url : String) : Option String :=
  if pyContains url "lts" then some "lts"
  else if pyContains url "latest-stable" then some "unstable"
  else if pyContains url "unstable-releases" then some "dev"
  else none

/-- Version and build extraction from an anchor href (src lines 151-152):
`url.split("/").pop().split("limesurvey").pop().split("+")[0]` and
`url.split("/").pop().split("limesurvey").pop().split("+").pop().split(".zip")[0]`. -/
def urlVersionBuild (url : String) : String × String :=
  let fname := (pySplit url "/").getLastD ""
  let tail := (pySplit fname "limesurvey").getLastD ""
  let version := (pySplit tail "+").headD ""
  let build := (pySplit ((pySplit tail "+").getLastD "") ".zip").headD ""
  (version, build)

/-- Parse one anchor href into a release row (src lines 140-156); `none`
models the abort taken when no channel substring occurs in the href. -/
def parseAnchor (url : String) : Option Release :=
  match classifyChannel url with
  | none => none
  | some t =>
    let vb := urlVersionBuild url
    some ⟨vb.1 ++ "+" ++ vb.2, t, url⟩

/-- Parse the whole list of release anchors in page order (src loop lines
140-157). A single unclassifiable anchor aborts the whole parse, exactly
as the source's in-loop exit does. -/
def parseReleases : List String → Option (List Release)
  | [] => some []
  | url :: rest =>
    match parseAnchor url with
    | none => none
    | some r =>
      match parseReleases rest with
      | none => none
      | some rs => some (r :: rs)

/-- Release selection (src lines 166-170): the first release, in page
order, whose channel tag equals the configured branch. -/
def selectRelease : List Release → String → Option Release
  | [], _ => none
  | r :: rest, branch =>
    if r.type == branch then some r else selectRelease rest branch

/-- The init-system dispatch (src lines 206-217 for `stop`, 352-363 for
`start`: both chains are textually identical except for the verb). `none`
models the fall-through of the `elif` chain, in which no command is run. -/
def initSystemCmd (initSys verb svc : String) : Option (List String) :=
  if initSys == "systemd" || initSys == "systemctl" then
    some ["systemctl", verb, svc]
  else if initSys == "service" || initSys == "generic" then
    some ["service", svc, verb]
  else if initSys == "init.d" || initSys == "openrc" then
    some ["/etc/init.d/" ++ svc, verb]
  else if initSys == "rc.d" then
    some ["/etc/rc.d/" ++ svc, verb]
  else if initSys == "upstart" || initSys == "finit" || initSys == "initctl" then
    some ["initctl", verb, svc]
  else if initSys == "epoch" then
    some ["epoch", verb, svc]
  else none

/-- The guard of each branch of the dispatch chain (src lines 206-216),
in source order, evaluated at a given init-system string. -/
def dispatchGuards (k : String) : List Bool :=
  [k == "systemd" || k == "systemctl",
   k == "service" || k == "generic",
   k == "init.d" || k == "openrc",
   k == "rc.d",
   k == "upstart" || k == "finit" || k == "initctl",
   k == "epoch"]

/-- The eleven init-system identifiers accepted by configuration
validation (src lines 88-89). -/
def acceptedInitSystems : List String :=
  ["generic", "service", "systemd", "systemctl", "init.d", "openrc",
   "rc.d", "upstart", "finit", "initctl", "epoch"]

/-- Configuration validation (src lines 67-93): every required value
non-empty, branch one of the three channels, install path existing,
writable and executable (the two filesystem probes are oracle inputs),
and the init system one of the accepted identifiers. -/
def validateConfig (cfg : Config) (installPathExists installPathWX : Bool) : Bool :=
  (!(cfg.branch == "")) && (!(cfg.db_cnf_path == "")) && (!(cfg.db_name == ""))
  && (!(cfg.db_port == "")) && (!(cfg.db_server == ""))
  && (!(cfg.install_octal_permissions == "")) && (!(cfg.install_owner == ""))
  && (!(cfg.install_path == ""))
  && (!(cfg.web_server_init_system == "")) && (!(cfg.web_server_service == ""))
  && (["lts", "unstable", "dev"].contains cfg.branch)
  && installPathExists && installPathWX
  && (acceptedInitSystems.contains cfg.web_server_init_system)

/-- The security-file guard (src lines 279 and 313): the installed version
string starts with `"4"` or with `"5"`. -/
def securityFileIncluded (current_version : String) : Bool :=
  pyStartswith current_version "4" || pyStartswith current_version "5"

/-- Actions of the download step (src lines 181-187): create the download
directory when missing, remove a pre-existing file at the destination,
then download. -/
def downloadActions (filename url : String) (env : Env) : List Act :=
  (if env.downloadDirExists then [] else [Act.makeDirs "ls_downloads"])
  ++ (if env.dlFileExists then [Act.removeFile ("ls_downloads/" ++ filename)] else [])
  ++ [Act.wgetDownload url ("ls_downloads/" ++ filename)]

/-- Actions of the extract step (src lines 193-198): remove a pre-existing
extraction directory, then unpack the archive. -/
def extractActions (filename new_version : String) (env : Env) : List Act :=
  (if env.extractDirExists then [Act.removeTree ("ls_downloads/" ++ new_version)] else [])
  ++ [Act.unpackArchive ("ls_downloads/" ++ filename) ("ls_downloads/" ++ new_version)]

/-- Actions of the service-stop step (src lines 205-217): the dispatched
stop command, or nothing on the chain's fall-through. -/
def stopActions (initSys svc : String) : List Act :=
  match initSystemCmd initSys "stop" svc with
  | some c => [Act.runCmd c]
  | none => []

/-- Actions of the service-start step (src lines 351-363). -/
def startActions (initSys svc : String) : List Act :=
  match initSystemCmd initSys "start" svc with
  | some c => [Act.runCmd c]
  | none => []

/-- The database dump invocation (src lines 241-247). -/
def dumpCmd (db_cnf db_server db_port db_name backup_path : String) : List String :=
  ["mysqldump", "--defaults-extra-file=" ++ db_cnf, "-h", db_server, "-P", db_port,
   db_name, "--result-file=" ++ backup_path ++ db_name ++ ".sql"]

/-- Actions of the restore-critical copy step (src lines 269-282): the
uploads tree, the main config file, and — when the installed version
string starts with `"4"` or `"5"` — the security config file. -/
def restoreCriticalCopies (install_path backup_path current_version : String) : List Act :=
  [Act.copyTree (install_path ++ "/upload") (backup_path ++ "upload"),
   Act.copyFile (install_path ++ "/application/config/config.php") (backup_path ++ "config.php")]
  ++ (if securityFileIncluded current_version then
        [Act.copyFile (install_path ++ "/application/config/security.php")
          (backup_path ++ "security.php")]
      else [])

/-- Actions of the move-new-files step (src lines 295-300): delete the
bundled uploads directory of the extracted release, then move the
extracted application subtree into the install path. -/
def moveNewActions (install_path new_version : String) : List Act :=
  [Act.removeTree ("ls_downloads/" ++ new_version ++ "/limesurvey/upload"),
   Act.moveTree ("ls_downloads/" ++ new_version ++ "/limesurvey") install_path]

/-- Actions of the restore step (src lines 306-317): move the backed-up
uploads tree and config file(s) back into the new installation, with the
same version guard for the security file as the copy step. -/
def restoreMoves (install_path backup_path current_version : String) : List Act :=
  [Act.moveTree (backup_path ++ "upload") install_path,
   Act.moveTree (backup_path ++ "config.php") (install_path ++ "/application/config/")]
  ++ (if securityFileIncluded current_version then
        [Act.moveTree (backup_path ++ "security.php") (install_path ++ "/application/config/")]
      else [])

/-- The pipeline of `run` from release-page parsing onward (src lines
135-372), given the already-read installed version fields and the hrefs of
the parsed release anchors. Returns the process exit code and the ordered
trace of attempted external actions; every early `⟨1, _⟩` is one of the
source's `exit(1)` sites, `⟨0, []⟩` is the up-to-date exit (src line 176),
and the final result is the successful completion of step 12.

Faithfulness notes: `new_version == current_version` (src line 174)
compares the selected release code against the *version* field alone, not
against `version_code = current_version + "+" + current_build` (src line
121) — this is deliberate in the embedding, because it is what the source
does. The service stop/start steps can only fail when a command was
actually dispatched (the `elif` fall-through runs no subprocess, so no
`CalledProcessError` can occur there). The pre-existence guard for the
database backup (src line 230) precedes both the backup-directory
creation and the dump invocation; the guard for the tree backup (src line
257) precedes the archive call. -/
def run (cfg : Config) (current_version current_build : String) (hrefs : List String)
    (env : Env) : RunResult :=
  let version_code := current_version ++ "+" ++ current_build
  match parseReleases hrefs with
  | none => ⟨1, []⟩
  | some releases =>
    match selectRelease releases cfg.branch with
    | none => ⟨1, []⟩
    | some release =>
      let new_version := release.release_code
      if new_version == current_version then ⟨0, []⟩
      else
        let filename := new_version ++ ".zip"
        let t1 := downloadActions filename release.url env
        if env.downloadFails then ⟨1, t1⟩ else
        let t2 := t1 ++ extractActions filename new_version env
        if env.extractFails then ⟨1, t2⟩ else
        let t3 := t2 ++ stopActions cfg.web_server_init_system cfg.web_server_service
        if env.stopFails
            && (initSystemCmd cfg.web_server_init_system "stop" cfg.web_server_service).isSome
        then ⟨1, t3⟩ else
        let build_change := version_code ++ "_to_" ++ new_version
        let backup_path := "ls_backup/" ++ build_change ++ "/"
        if env.dbBackupExists then ⟨1, t3⟩ else
        let t4 := t3 ++ (if env.backupDirExists then [] else [Act.makeDirs backup_path])
        if env.mkdirFails then ⟨1, t4⟩ else
        let t5 := t4 ++ [Act.runCmd
          (dumpCmd cfg.db_cnf_path cfg.db_server cfg.db_port cfg.db_name backup_path)]
        if env.dumpFails then ⟨1, t5⟩ else
        if env.treeBackupExists then ⟨1, t5⟩ else
        let t6 := t5 ++ [Act.makeArchive (backup_path ++ version_code ++ "_backup") "zip"
          cfg.install_path]
        if env.archiveFails then ⟨1, t6⟩ else
        let t7 := t6 ++ restoreCriticalCopies cfg.install_path backup_path current_version
        if env.copyFails then ⟨1, t7⟩ else
        let t8 := t7 ++ [Act.removeTree cfg.install_path]
        if env.deleteFails then ⟨1, t8⟩ else
        let t9 := t8 ++ moveNewActions cfg.install_path new_version
        if env.moveFails then ⟨1, t9⟩ else
        let t10 := t9 ++ restoreMoves cfg.install_path backup_path current_version
        if env.restoreFails then ⟨1, t10⟩ else
        let t11 := t10 ++ [Act.runCmd ["chown", "-R", "www-data:www-data", cfg.install_path]]
        if env.chownFails then ⟨1, t11⟩ else
        let t12 := t11 ++ [Act.runCmd ["chmod", "-R", cfg.install_octal_permissions,
          cfg.install_path]]
        if env.chmodFails then ⟨1, t12⟩ else
        let t13 := t12 ++ startActions cfg.web_server_init_system cfg.web_server_service
        if env.startFails
            && (initSystemCmd cfg.web_server_init_system "start" cfg.web_server_service).isSome
        then ⟨1, t13⟩ else
        ⟨0, t13⟩

/-- True iff every filesystem path an action writes lies under the working
download directory `ls_downloads` (the only location steps 1-2 touch). -/
def underDownloads (a : Act) : Bool :=
  (Act.pathsWritten a).all (fun p => pyStartswith p "ls_downloads")

/-- True for actions that belong to steps 4-12 of the workflow: the
archive, copy and move constructors only occur there, and a command
invocation whose program is the dump tool, `chown` or `chmod` only occurs
there. -/
def isForbiddenAfterGuard : Act → Bool
  | .makeArchive _ _ _ => true
  | .copyTree _ _ => true
  | .copyFile _ _ => true
  | .moveTree _ _ => true
  | .runCmd c => c.headD "" == "mysqldump" || c.headD "" == "chown" || c.headD "" == "chmod"
  | _ => false

/-- Decimal digit value of a character, `none` on a non-digit. -/
def charDigit (c : Char) : Option Nat :=
  if c == '0' then some 0 else if c == '1' then some 1 else if c == '2' then some 2
  else if c == '3' then some 3 else if c == '4' then some 4 else if c == '5' then some 5
  else if c == '6' then some 6 else if c == '7' then some 7 else if c == '8' then some 8
  else if c == '9' then some 9 else none

/-- Read a digit string as a decimal number, `none` on any non-digit. -/
def digitsToNat : List Char → Nat → Option Nat
  | [], acc => some acc
  | c :: cs, acc =>
    match charDigit c with
    | some d => digitsToNat cs (acc * 10 + d)
    | none => none

/-- Follows the spec's words (for comparison with the source-derived
`securityFileIncluded`): the "installed major version" of a version
string — its leading dot-separated component read as a decimal number.
The source never computes this; it tests `startswith` on the raw string. -/
def specMajorVersion (v : String) : Option Nat :=
  let s := (pySplit v ".").headD ""
  if s.data.isEmpty then none else digitsToNat s.data 0

/-- Environment in which every probed path is absent and every external
operation succeeds. -/
def envAllOk : Env :=
  Env.mk false false false false false false false false false false
    false false false false false false false false false

/-- Environment in which the database dump file already exists when step 4
probes for it; everything else succeeds. -/
def envDbExists : Env :=
  Env.mk false false false false false false true false false false
    false false false false false false false false false

/-- Environment in which the service-stop command fails; everything else
succeeds. -/
def envStopFails : Env :=
  Env.mk false false false false false true false false false false
    false false false false false false false false false

/-- A fully valid configuration on the `lts` branch with an `openrc` init
system. -/
def cfgValid : Config :=
  Config.mk "lts" "cnf" "db" "3306" "dbhost" "750" "www-data" "/var/www/ls"
    false false false "openrc" "nginx"

/-- A fully valid configuration on the `dev` branch with a `systemd` init
system. -/
def cfgDev : Config :=
  Config.mk "dev" "cnf" "db" "3306" "dbhost" "750" "www-data" "/var/www/ls"
    false false false "systemd" "nginx"

/-- The `lts` release row parsed from the first anchor of `hrefsC1`. -/
def relC1a : Release := Release.mk "5.3+220225" "lts" "d/lts/limesurvey5.3+220225.zip"

/-- The `unstable` release row parsed from the second anchor of `hrefsC1`. -/
def relC1b : Release :=
  Release.mk "6.0+240101" "unstable" "d/latest-stable/limesurvey6.0+240101.zip"

/-- The release list of the spec's end-to-end scenario. -/
def rsC1 : List Release := [relC1a, relC1b]

/-- Anchor hrefs producing the spec's end-to-end scenario release list:
an `lts` release with code `5.3+220225` and an `unstable` release with
code `6.0+240101`. -/
def hrefsC1 : List String :=
  ["d/lts/limesurvey5.3+220225.zip", "d/latest-stable/limesurvey6.0+240101.zip"]

/-- A `dev`-channel release row used to pad selection examples. -/
def relDev9 : Release := Release.mk "9.9+900000" "dev" "u1"

/-- An `lts` release row with a lower version than `relLts622`. -/
def relLts54 : Release := Release.mk "5.4+230901" "lts" "u2"

/-- An `lts` release row with a higher version than `relLts54`, listed
after it. -/
def relLts622 : Release := Release.mk "6.22+999999" "lts" "u3"

/-! ## Helper lemmas -/

theorem str_data_inj {a b : String} (h : a.data = b.data) : a = b := by
  cases a; cases b; exact congrArg String.mk h

theorem str_data_append (a b : String) : (a ++ b).data = a.data ++ b.data := rfl

theorem str_append_ne (p : String) {a b : String} (h : ¬ a = b) : ¬ (p ++ a = p ++ b) := by
  intro he
  apply h
  apply str_data_inj
  have hd : p.data ++ a.data = p.data ++ b.data := congrArg String.data he
  exact List.append_cancel_left hd

theorem str_length_append (a b : String) : (a ++ b).length = a.length + b.length := by
  show (a.data ++ b.data).length = a.data.length + b.data.length
  exact List.length_append a.data b.data

theorem str_beq_false_of_length_lt {a b : String} (h : b.length < a.length) :
    (a == b) = false := by
  rw [beq_eq_false_iff_ne]
  intro he
  subst he
  exact lt_irrefl _ h

theorem matchesFront_append (p q : List Char) : matchesFront p (p ++ q) = true := by
  induction p with
  | nil => rfl
  | cons c cs ih => simp [matchesFront, ih]

@[simp]
theorem under_dl (x : String) : pyStartswith ("ls_downloads/" ++ x) "ls_downloads" = true := by
  unfold pyStartswith
  have h : ("ls_downloads/" ++ x).data = "ls_downloads".data ++ ('/' :: x.data) := rfl
  rw [h]
  exact matchesFront_append _ _

@[simp]
theorem under_dl_base : pyStartswith "ls_downloads" "ls_downloads" = true := by decide

theorem dlex_under (f nv u : String) (env : Env) :
    ((downloadActions f u env ++ extractActions f nv env).all underDownloads) = true := by
  unfold downloadActions extractActions
  cases env.downloadDirExists <;> cases env.dlFileExists <;> cases env.extractDirExists <;>
    simp [underDownloads, Act.pathsWritten]

theorem etc_cmd_not_forbidden (pre s : String) (hl : 9 < pre.length) :
    (pre ++ s == "mysqldump" || pre ++ s == "chown" || pre ++ s == "chmod") = false := by
  have hle : 9 ≤ pre.length + s.length := by omega
  have h1 : ("mysqldump" : String).length < (pre ++ s).length := by
    rw [str_length_append]
    have h9 : ("mysqldump" : String).length = 9 := rfl
    omega
  have h2 : ("chown" : String).length < (pre ++ s).length := by
    rw [str_length_append]
    have h5 : ("chown" : String).length = 5 := rfl
    omega
  have h3 : ("chmod" : String).length < (pre ++ s).length := by
    rw [str_length_append]
    have h5 : ("chmod" : String).length = 5 := rfl
    omega
  simp [str_beq_false_of_length_lt h1, str_beq_false_of_length_lt h2,
    str_beq_false_of_length_lt h3]

theorem stop_not_forbidden (k s : String) :
    ∀ a ∈ stopActions k s, isForbiddenAfterGuard a = false := by
  intro a ha
  unfold stopActions at ha
  cases hcmd : initSystemCmd k "stop" s with
  | none => rw [hcmd] at ha; simp at ha
  | some c =>
    rw [hcmd] at ha
    simp at ha
    subst ha
    unfold initSystemCmd at hcmd
    split_ifs at hcmd <;> injection hcmd with hc <;> subst hc <;>
      simp only [isForbiddenAfterGuard, List.headD_cons] <;>
      first
        | decide
        | exact etc_cmd_not_forbidden _ _ (by decide)

theorem dlex_not_forbidden (f nv u : String) (env : Env) :
    ((downloadActions f u env ++ extractActions f nv env).any isForbiddenAfterGuard) = false := by
  unfold downloadActions extractActions
  cases env.downloadDirExists <;> cases env.dlFileExists <;> cases env.extractDirExists <;>
    simp [isForbiddenAfterGuard]

theorem parseReleases_none {hrefs : List String} {url : String}
    (hm : url ∈ hrefs) (hc : classifyChannel url = none) :
    parseReleases hrefs = none := by
  induction hrefs with
  | nil => cases hm
  | cons h t ih =>
    rcases List.mem_cons.mp hm with he | ht
    · subst he
      simp [parseReleases, parseAnchor, hc]
    · cases hpa : parseAnchor h with
      | none => simp [parseReleases, hpa]
      | some r => simp [parseReleases, hpa, ih ht]

/-! ## Claim theorems -/

/-- Claim C4: for every release list containing one or more entries whose
channel equals the configured channel, the resolver (`selectRelease`, src
lines 166-170) selects the first matching entry in list order, regardless
of how its version compares to later matches: any decomposition into a
non-matching front, a matching entry, and an arbitrary rest selects that
entry. -/
theorem C4_first_match (pre post : List Release) (r : Release) (branch : String)
    (hpre : ∀ x ∈ pre, (x.type == branch) = false)
    (hr : (r.type == branch) = true) :
    selectRelease (pre ++ r :: post) branch = some r := by
  induction pre with
  | nil => simp [selectRelease, hr]
  | cons p ps ih =>
    have hp := hpre p (by simp)
    simp only [List.cons_append, selectRelease, hp, Bool.false_eq_true, if_false]
    exact ih (fun x hx => hpre x (by simp [hx]))

/-- Witness for C4 at a concrete input: among a `dev` release and two
`lts` releases where the *later* `lts` release has the higher version,
branch `lts` selects the earlier, lower-versioned one. -/
theorem C4_first_match_witness :
    selectRelease [relDev9, relLts54, relLts622] "lts" = some relLts54 :=
  C4_first_match [relDev9] [relLts622] relLts54 "lts" (by decide) (by decide)

/-- Claim C6: when no release of the configured channel exists in the
parsed list, the run exits with code 1 and an empty action trace — no
side effect on the installation directory, the backup directory, or the
service has occurred. -/
theorem C6_no_release_aborts (cfg : Config) (v b : String) (hrefs : List String)
    (env : Env) (rs : List Release)
    (hp : parseReleases hrefs = some rs)
    (hs : selectRelease rs cfg.branch = none) :
    run cfg v b hrefs env = ⟨1, []⟩ := by
  simp [run, hp, hs]

/-- Witness for C6: a `dev`-branch configuration against a release list
holding only an `lts` release. -/
theorem C6_no_release_aborts_witness :
    run cfgDev "5.3" "220225" ["d/lts/limesurvey5.3+220225.zip"] envAllOk = ⟨1, []⟩ :=
  C6_no_release_aborts cfgDev "5.3" "220225" ["d/lts/limesurvey5.3+220225.zip"] envAllOk
    [relC1a] (by decide) (by decide)

/-- Claim C9: if any anchor href on the page contains none of the three
channel substrings, the run aborts with exit code 1 during the parsing
step — no release list is produced (`parseReleases` yields `none`) and no
release is selected, regardless of the other anchors. -/
theorem C9_unclassifiable_anchor_aborts (cfg : Config) (v b : String) (env : Env)
    (hrefs : List String) (url : String)
    (hm : url ∈ hrefs) (hc : classifyChannel url = none) :
    run cfg v b hrefs env = ⟨1, []⟩ ∧ parseReleases hrefs = none := by
  have hp := parseReleases_none hm hc
  exact ⟨by simp [run, hp], hp⟩

/-- Witness for C9: a page whose first anchor is a perfectly valid `lts`
release and whose second anchor matches no channel substring. -/
theorem C9_unclassifiable_anchor_aborts_witness :
    run cfgValid "5.3" "220225" ["d/lts/limesurvey5.3+220225.zip", "d/bogus/file.zip"]
        envAllOk = ⟨1, []⟩
    ∧ parseReleases ["d/lts/limesurvey5.3+220225.zip", "d/bogus/file.zip"] = none :=
  C9_unclassifiable_anchor_aborts cfgValid "5.3" "220225" envAllOk
    ["d/lts/limesurvey5.3+220225.zip", "d/bogus/file.zip"] "d/bogus/file.zip"
    (by decide) (by decide)

/-- Claim C3: if the file `<backup_path>/<db_name>.sql` already exists
when step 4 begins (`env.dbBackupExists`), the run exits with code 1 and
its complete action trace is exactly the download, extract and
service-stop actions of steps 1-3: the database dump tool was never
invoked and no action of steps 5-12 (no archive, copy, move, or
`mysqldump`/`chown`/`chmod` command) occurs in the trace. -/
theorem C3_db_backup_guard (cfg : Config) (v b : String) (hrefs : List String) (env : Env)
    (rs : List Release) (rel : Release)
    (hp : parseReleases hrefs = some rs)
    (hs : selectRelease rs cfg.branch = some rel)
    (hne : (rel.release_code == v) = false)
    (hdl : env.downloadFails = false) (hex : env.extractFails = false)
    (hstop : env.stopFails = false) (hdb : env.dbBackupExists = true) :
    run cfg v b hrefs env
      = ⟨1, downloadActions (rel.release_code ++ ".zip") rel.url env
            ++ extractActions (rel.release_code ++ ".zip") rel.release_code env
            ++ stopActions cfg.web_server_init_system cfg.web_server_service⟩
    ∧ ((downloadActions (rel.release_code ++ ".zip") rel.url env
            ++ extractActions (rel.release_code ++ ".zip") rel.release_code env
            ++ stopActions cfg.web_server_init_system cfg.web_server_service).any
          isForbiddenAfterGuard) = false := by
  constructor
  · simp [run, hp, hs, hne, hdl, hex, hstop, hdb]
  · rw [List.any_append, Bool.or_eq_false_iff]
    refine ⟨dlex_not_forbidden _ _ _ env, ?_⟩
    rw [List.any_eq_false]
    intro x hx
    simp [stop_not_forbidden _ _ x hx]

/-- Witness for C3: the scenario release list, an installed 5.3 build
220225, and an environment in which the dump file pre-exists. -/
theorem C3_db_backup_guard_witness :
    run cfgValid "5.3" "220225" hrefsC1 envDbExists
      = ⟨1, downloadActions ("5.3+220225" ++ ".zip") relC1a.url envDbExists
            ++ extractActions ("5.3+220225" ++ ".zip") "5.3+220225" envDbExists
            ++ stopActions cfgValid.web_server_init_system cfgValid.web_server_service⟩
    ∧ ((downloadActions ("5.3+220225" ++ ".zip") relC1a.url envDbExists
            ++ extractActions ("5.3+220225" ++ ".zip") "5.3+220225" envDbExists
            ++ stopActions cfgValid.web_server_init_system cfgValid.web_server_service).any
          isForbiddenAfterGuard) = false :=
  C3_db_backup_guard cfgValid "5.3" "220225" hrefsC1 envDbExists rsC1 relC1a
    (by decide) (by decide) (by decide) rfl rfl rfl rfl

/-- Claim C7: if the service-stop command of step 3 fails, the run exits
with code 1; its complete action trace is the download/extract actions of
steps 1-2 followed by the single stop command, and every filesystem path
written by those download/extract actions lies under the working
directory `ls_downloads` — neither the installation directory nor the
backup directory has been touched. -/
theorem C7_stop_failure_aborts (cfg : Config) (v b : String) (hrefs : List String)
    (env : Env) (rs : List Release) (rel : Release) (c : List String)
    (hp : parseReleases hrefs = some rs)
    (hs : selectRelease rs cfg.branch = some rel)
    (hne : (rel.release_code == v) = false)
    (hdl : env.downloadFails = false) (hex : env.extractFails = false)
    (hc : initSystemCmd cfg.web_server_init_system "stop" cfg.web_server_service = some c)
    (hstop : env.stopFails = true) :
    run cfg v b hrefs env
      = ⟨1, downloadActions (rel.release_code ++ ".zip") rel.url env
            ++ extractActions (rel.release_code ++ ".zip") rel.release_code env
            ++ [Act.runCmd c]⟩
    ∧ ((downloadActions (rel.release_code ++ ".zip") rel.url env
        ++ extractActions (rel.release_code ++ ".zip") rel.release_code env).all
          underDownloads) = true := by
  constructor
  · simp [run, hp, hs, hne, hdl, hex, hstop, stopActions, hc]
  · exact dlex_under _ _ _ env

/-- Witness for C7: the scenario release list with the stop command
failing under an `openrc` init system. -/
theorem C7_stop_failure_aborts_witness :
    run cfgValid "5.3" "220225" hrefsC1 envStopFails
      = ⟨1, downloadActions ("5.3+220225" ++ ".zip") relC1a.url envStopFails
            ++ extractActions ("5.3+220225" ++ ".zip") "5.3+220225" envStopFails
            ++ [Act.runCmd ["/etc/init.d/nginx", "stop"]]⟩
    ∧ ((downloadActions ("5.3+220225" ++ ".zip") relC1a.url envStopFails
        ++ extractActions ("5.3+220225" ++ ".zip") "5.3+220225" envStopFails).all
          underDownloads) = true :=
  C7_stop_failure_aborts cfgValid "5.3" "220225" hrefsC1 envStopFails rsC1 relC1a
    ["/etc/init.d/nginx", "stop"]
    (by decide) (by decide) (by decide) rfl rfl (by decide) rfl

/-- Claim C5: the init-system command mapping (`initSystemCmd`, src lines
206-217 and 352-363) sends every accepted kind to the command of the
mapping table, for any verb — the stop step of `run` instantiates it at
verb `"stop"` (`stopActions`) and the start step at verb `"start"`
(`startActions`), so stop and start use the identical mapping with only
the verb substituted. -/
theorem C5_init_mapping (verb svc : String) :
    initSystemCmd "systemd" verb svc = some ["systemctl", verb, svc]
    ∧ initSystemCmd "systemctl" verb svc = some ["systemctl", verb, svc]
    ∧ initSystemCmd "service" verb svc = some ["service", svc, verb]
    ∧ initSystemCmd "generic" verb svc = some ["service", svc, verb]
    ∧ initSystemCmd "init.d" verb svc = some ["/etc/init.d/" ++ svc, verb]
    ∧ initSystemCmd "openrc" verb svc = some ["/etc/init.d/" ++ svc, verb]
    ∧ initSystemCmd "rc.d" verb svc = some ["/etc/rc.d/" ++ svc, verb]
    ∧ initSystemCmd "upstart" verb svc = some ["initctl", verb, svc]
    ∧ initSystemCmd "finit" verb svc = some ["initctl", verb, svc]
    ∧ initSystemCmd "initctl" verb svc = some ["initctl", verb, svc]
    ∧ initSystemCmd "epoch" verb svc = some ["epoch", verb, svc] :=
  ⟨rfl, rfl, rfl, rfl, rfl, rfl, rfl, rfl, rfl, rfl, rfl⟩

/-- Claim C10: whenever configuration validation succeeded, the configured
init system is one of the eleven accepted identifiers, for which exactly
one guard of the dispatch chain is true (so exactly one branch executes,
identically for the stop and start chains), and the dispatch yields a
command — the fall-through in which no command runs is unreachable. -/
theorem C10_dispatch_total (cfg : Config) (e1 e2 : Bool)
    (h : validateConfig cfg e1 e2 = true) :
    (dispatchGuards cfg.web_server_init_system).count true = 1
    ∧ (initSystemCmd cfg.web_server_init_system "stop" cfg.web_server_service).isSome = true
    ∧ (initSystemCmd cfg.web_server_init_system "start" cfg.web_server_service).isSome
        = true := by
  have hmem : acceptedInitSystems.contains cfg.web_server_init_system = true := by
    unfold validateConfig at h
    simp only [Bool.and_eq_true] at h
    exact h.2
  have hd : cfg.web_server_init_system = "generic" ∨ cfg.web_server_init_system = "service"
      ∨ cfg.web_server_init_system = "systemd" ∨ cfg.web_server_init_system = "systemctl"
      ∨ cfg.web_server_init_system = "init.d" ∨ cfg.web_server_init_system = "openrc"
      ∨ cfg.web_server_init_system = "rc.d" ∨ cfg.web_server_init_system = "upstart"
      ∨ cfg.web_server_init_system = "finit" ∨ cfg.web_server_init_system = "initctl"
      ∨ cfg.web_server_init_system = "epoch" := by
    simpa [acceptedInitSystems, List.contains, List.elem_eq_mem] using hmem
  rcases hd with hk | hk | hk | hk | hk | hk | hk | hk | hk | hk | hk <;> rw [hk] <;>
    exact ⟨rfl, rfl, rfl⟩

/-- Witness for C10 at a concrete validated configuration (`openrc`). -/
theorem C10_dispatch_total_witness :
    (dispatchGuards cfgValid.web_server_init_system).count true = 1
    ∧ (initSystemCmd cfgValid.web_server_init_system "stop"
        cfgValid.web_server_service).isSome = true
    ∧ (initSystemCmd cfgValid.web_server_init_system "start"
        cfgValid.web_server_service).isSome = true :=
  C10_dispatch_total cfgValid true true (by decide)

/-- Claim C8: the configured `install_owner` never influences the run —
two configurations differing only in `install_owner` produce the same
exit code and the identical action trace; in particular the ownership
step's command is the hard-coded
`chown -R www-data:www-data <install_path>` in both (src lines 322-325:
only the log message, outside the action trace, mentions the configured
owner). -/
theorem C8_owner_noninterference (branch dbc dbn dbp dbs perms o1 o2 ip : String)
    (lf lsy lst : Bool) (wsis wss : String) (v b : String) (hrefs : List String)
    (env : Env) :
    run (Config.mk branch dbc dbn dbp dbs perms o1 ip lf lsy lst wsis wss) v b hrefs env
      = run (Config.mk branch dbc dbn dbp dbs perms o2 ip lf lsy lst wsis wss) v b hrefs
          env := rfl

/-- Claim C1 fails on the code: in the spec's end-to-end scenario
(installed version `5.3`, build `220225`, branch `lts`, release list with
an `lts` release whose code `5.3+220225` equals the installed
VersionCode), the run does NOT stop as already-up-to-date: its trace is
non-empty and contains the download of the matched release, because src
line 174 compares the release code against `current_version` (`"5.3"`)
instead of the combined `version_code` (`"5.3+220225"`, src line 121). -/
theorem C1_divergence :
    parseReleases hrefsC1 = some rsC1
    ∧ selectRelease rsC1 "lts" = some relC1a
    ∧ relC1a.release_code = "5.3" ++ "+" ++ "220225"
    ∧ (run cfgValid "5.3" "220225" hrefsC1 envAllOk).trace ≠ []
    ∧ Act.wgetDownload "d/lts/limesurvey5.3+220225.zip" "ls_downloads/5.3+220225.zip"
        ∈ (run cfgValid "5.3" "220225" hrefsC1 envAllOk).trace := by
  refine ⟨by decide, by decide, by decide, by decide, by decide⟩

theorem securityIncluded_iff (v : String) :
    securityFileIncluded v = true ↔ (v.data.head? = some '4' ∨ v.data.head? = some '5') := by
  unfold securityFileIncluded pyStartswith
  have h4 : ("4" : String).data = ['4'] := rfl
  have h5 : ("5" : String).data = ['5'] := rfl
  rw [h4, h5]
  cases hd : v.data with
  | nil => simp [matchesFront]
  | cons c cs =>
    simp [matchesFront]
    constructor
    · rintro (h | h)
      · exact Or.inl h.symm
      · exact Or.inr h.symm
    · rintro (h | h)
      · exact Or.inl h.symm
      · exact Or.inr h.symm

theorem sec_mem_copies (ip bp v : String) (hg : securityFileIncluded v = true) :
    Act.copyFile (ip ++ "/application/config/security.php") (bp ++ "security.php")
      ∈ restoreCriticalCopies ip bp v := by
  simp [restoreCriticalCopies, hg]

theorem sec_not_mem_copies (ip bp v : String) (hg : securityFileIncluded v = false) :
    Act.copyFile (ip ++ "/application/config/security.php") (bp ++ "security.php")
      ∉ restoreCriticalCopies ip bp v := by
  simp [restoreCriticalCopies, hg]
  rintro h1 h2
  exact str_append_ne ip (by decide) h1

theorem sec_mem_moves (ip bp v : String) (hg : securityFileIncluded v = true) :
    Act.moveTree (bp ++ "security.php") (ip ++ "/application/config/")
      ∈ restoreMoves ip bp v := by
  simp [restoreMoves, hg]

theorem sec_not_mem_moves (ip bp v : String) (hg : securityFileIncluded v = false) :
    Act.moveTree (bp ++ "security.php") (ip ++ "/application/config/")
      ∉ restoreMoves ip bp v := by
  simp [restoreMoves, hg]
  constructor
  · rintro h1 h2
    exact str_append_ne bp (by decide) h1
  · intro h1
    exact str_append_ne bp (by decide) h1

/-- Claim C2 is false as stated: for installed version string `"40.0"`,
whose major version is `40` (which is `6` or higher, so the claim says the
security config file is excluded), the copy step's output set DOES include
the `security.php` copy, because the source (line 279) tests
`startswith("4")`/`startswith("5")` on the raw version string rather than
the parsed major version. -/
theorem C2_counterexample :
    specMajorVersion "40.0" = some 40
    ∧ 6 ≤ 40
    ∧ securityFileIncluded "40.0" = true
    ∧ Act.copyFile ("/var/www/ls" ++ "/application/config/security.php")
        ("ls_backup/b/" ++ "security.php")
        ∈ restoreCriticalCopies "/var/www/ls" "ls_backup/b/" "40.0" := by decide

/-- Claim C2 (amended): for every installed version string, the
restore-critical file set of step 6 includes the `security.php` copy —
and the restore of step 9 includes the corresponding move — exactly when
the version string's first character is `'4'` or `'5'` (the source's
`startswith` test, src lines 279 and 313). For single-digit major
versions this coincides with "major version 4 or 5", but a multi-digit
major such as 40 is also included. -/
theorem C2_security_file_guard (ip bp v : String) :
    (Act.copyFile (ip ++ "/application/config/security.php") (bp ++ "security.php")
        ∈ restoreCriticalCopies ip bp v
      ↔ (v.data.head? = some '4' ∨ v.data.head? = some '5'))
    ∧ (Act.moveTree (bp ++ "security.php") (ip ++ "/application/config/")
        ∈ restoreMoves ip bp v
      ↔ (v.data.head? = some '4' ∨ v.data.head? = some '5')) := by
  have hch := securityIncluded_iff v
  cases hg : securityFileIncluded v with
  | false =>
    have hnd : ¬(v.data.head? = some '4' ∨ v.data.head? = some '5') := by
      intro h
      have hc := hch.mpr h
      rw [hg] at hc
      exact absurd hc (by decide)
    exact ⟨iff_of_false (sec_not_mem_copies ip bp v hg) hnd,
           iff_of_false (sec_not_mem_moves ip bp v hg) hnd⟩
  | true =>
    have hd := hch.mp hg
    exact ⟨iff_of_true (sec_mem_copies ip bp v hg) hd,
           iff_of_true (sec_mem_moves ip bp v hg) hd⟩

end LSU
